import Mathlib

/-!
Shallow embedding of the navigation/selection core of the kupo file browser
(src/kupo/_directory.py, class Directory), together with theorems settling the
frozen claims about it.

Modelling conventions:
* All entries live in one directory, so a path is identified by its base name
  (a `String`); Python `Path.name` is the identity on this representation.
* The filesystem visible to the widget is modelled by `FileSystem`: the ordered
  listing that `list_files_in_dir` would return for the widget's directory, the
  live file-type of every path (what `Path.is_file` / `Path.is_dir` answer at
  call time), and which paths fail to delete (an `OSError` from `os.remove` or
  a failure inside `rm_tree`).
* Message emission (`emit_no_wait`) and the external editor `call` are modelled
  as a list of `Event` values returned next to the new state, in emission order.
* Pure presentation concerns (rich rendering, scrolling, `refresh`, the search
  input and warning banner) are outside the modelled core, as are the `print`
  debug statement and the `scroll_to_region` call.
-/

namespace Kupo

/-- Filesystem paths, identified by base name (all entries share one parent
directory). -/
abbrev Path := String

/-- Live type of a path on the filesystem: regular file, directory, or
anything else (including a path that does not exist). -/
inductive FileKind where
  | file
  | dir
  | other
deriving DecidableEq, Repr

/-- The filesystem as observed by one Directory widget: the ordered listing of
the widget's directory, the live kind of each path, and which paths raise when
deleted. -/
structure FileSystem where
  listing : List Path
  kind : Path → FileKind
  removeFails : Path → Bool

/-- Modelled from the spec: `list_files_in_dir` (kupo._files, not under src/).
Per §4.1 FileLister returns the ordered sequence of entries of the directory;
the filesystem model stores that ordered listing directly. -/
def list_files_in_dir (fs : FileSystem) : List Path := fs.listing

/-- Effect of a successful deletion on the filesystem: the path leaves the
listing and its live kind becomes `other` (it no longer exists). -/
def FileSystem.removePath (fs : FileSystem) (p : Path) : FileSystem :=
  { listing := fs.listing.filter (fun q => decide (q ≠ p))
    kind := fun q => if q = p then FileKind.other else fs.kind q
    removeFails := fs.removeFails }

/-- Models Python `os.remove`: deletes a single file, or raises `OSError`
(permissions, vanished file, ...). `none` models the raised exception. -/
def os_remove (fs : FileSystem) (p : Path) : Option FileSystem :=
  if fs.removeFails p then none else some (fs.removePath p)

/-- Modelled from the spec: `rm_tree` (kupo._files, not under src/). Per §4.5
and §6 it removes a directory recursively and may fail; modelled as removing
the path from the listing, failing exactly when the filesystem marks the path
as failing (`none` models the raised exception). -/
def rm_tree (fs : FileSystem) (p : Path) : Option FileSystem :=
  if fs.removeFails p then none else some (fs.removePath p)

/-- Messages emitted by the widget (`emit_no_wait`), plus the external editor
invocation performed for files, in emission order. -/
inductive Event where
  | FilePreviewChanged (path : Path)
  | CurrentDirChanged (new_dir : Path) (from_dir : Option Path)
  | SecondarySelectionChanged (selection : List (Option Path))
  | EditorCall (path : Path)
deriving DecidableEq, Repr

/-- State of the Directory widget. `chosen_paths` is a Python `set[Path]`,
modelled as a duplicate-free list in insertion order; its elements are
`Option Path` because `action_toggle_selected` can insert Python `None` (see
the C6 analysis). `_selected_index` is modelled as `Int`: the setter only ever
stores clamped integers (its `None` branch skips the assignment), and the field
is first assigned on mount. -/
structure Directory where
  path : Path
  _files : List Path
  _selected_index : Int
  chosen_paths : List (Option Path)
  has_focus : Bool
  cursor_movement_enabled : Bool
deriving DecidableEq, Repr

/-- Python list indexing, including negative-index wraparound; `none` models
an `IndexError`. -/
def pyGet {α : Type} (l : List α) (i : Int) : Option α :=
  if 0 ≤ i then l.get? i.toNat
  else if 0 ≤ (l.length : Int) + i then l.get? ((l.length : Int) + i).toNat
  else none

/-- `textual.geometry.clamp`: restrict `value` to the closed interval between
`minimum` and `maximum`, swapping the bounds first when they are reversed. -/
def clamp (value minimum maximum : Int) : Int :=
  if minimum > maximum then
    if value < maximum then maximum
    else if value > minimum then minimum
    else value
  else
    if value < minimum then minimum
    else if value > maximum then maximum
    else value

/-- `Directory._clamp_index`: "Ensure the selected index stays within range".
Note the source returns the integer 0 — not `None` — when the file list is
empty, despite its `int | None` return annotation. -/
def Directory._clamp_index (d : Directory) (new_index : Int) : Int :=
  if d._files = [] then 0
  else clamp new_index 0 ((d._files.length : Int) - 1)

/-- The `selected_index` property setter: a `None` assignment is silently
skipped; an integer assignment is clamped and stored, and when the file list
is non-empty a `FilePreviewChanged` for the newly selected file is emitted. -/
def Directory.set_selected_index (d : Directory) (new_value : Option Int) :
    Directory × List Event :=
  match new_value with
  | none => (d, [])
  | some v =>
    let d1 : Directory := { d with _selected_index := d._clamp_index v }
    (d1,
      if d1._files = [] then []
      else
        match pyGet d1._files d1._selected_index with
        | some f => [Event.FilePreviewChanged f]
        | none => [])

/-- The `selected_index` property getter. -/
def Directory.selected_index (d : Directory) : Int := d._selected_index

/-- `action_next_file`: when focused and cursor movement is enabled, move the
cursor one step down (the assignment re-clamps). -/
def Directory.action_next_file (d : Directory) : Directory × List Event :=
  if d.has_focus && d.cursor_movement_enabled then
    d.set_selected_index (some (d.selected_index + 1))
  else (d, [])

/-- `action_prev_file`: when focused and cursor movement is enabled, move the
cursor one step up (the assignment re-clamps). -/
def Directory.action_prev_file (d : Directory) : Directory × List Event :=
  if d.has_focus && d.cursor_movement_enabled then
    d.set_selected_index (some (d.selected_index - 1))
  else (d, [])

/-- `action_first`: jump to the clamp of index 0. -/
def Directory.action_first (d : Directory) : Directory × List Event :=
  d.set_selected_index (some (d._clamp_index 0))

/-- `action_last`: jump to the last index, assigning Python `None` when the
file list is empty (an assignment the setter then ignores). -/
def Directory.action_last (d : Directory) : Directory × List Event :=
  d.set_selected_index
    (if d._files = [] then none else some ((d._files.length : Int) - 1))

/-- `current_highlighted_path`: `None` when the file list is empty, otherwise
the file at the selected index. -/
def Directory.current_highlighted_path (d : Directory) : Option Path :=
  if d._files = [] then none
  else pyGet d._files d._selected_index

/-- `goto_selected_path`: nothing when there is no highlighted path; for a
live directory, clear the chosen set and emit one `CurrentDirChanged` with
`from_dir = None`; for a live regular file, invoke the external editor. -/
def Directory.goto_selected_path (d : Directory) (fs : FileSystem) :
    Directory × List Event :=
  match d.current_highlighted_path with
  | none => (d, [])
  | some p =>
    if fs.kind p = FileKind.dir then
      ({ d with chosen_paths := [] }, [Event.CurrentDirChanged p none])
    else if fs.kind p = FileKind.file then
      (d, [Event.EditorCall p])
    else (d, [])

/-- `action_toggle_selected`: toggle membership of `current_highlighted_path`
in `chosen_paths` (inserting Python `None` itself when there is no highlighted
entry), then emit `SecondarySelectionChanged` with the updated set. -/
def Directory.action_toggle_selected (d : Directory) : Directory × List Event :=
  let p := d.current_highlighted_path
  let chosen1 :=
    if p ∈ d.chosen_paths then d.chosen_paths.erase p
    else d.chosen_paths ++ [p]
  ({ d with chosen_paths := chosen1 }, [Event.SecondarySelectionChanged chosen1])

/-- Exceptions that can escape the deletion loop of `action_delete_selected`:
`attrError` models `None.is_file()` (an `AttributeError` when `chosen_paths`
contains `None`), `osError p` models a failed `os.remove`/`rm_tree` on `p`. -/
inductive DelError where
  | attrError
  | osError (path : Path)
deriving DecidableEq, Repr

/-- The chosen-set element whose processing raised the given exception. -/
def errElem : DelError → Option Path
  | DelError.attrError => none
  | DelError.osError p => some p

/-- Result of the deletion loop: the escaped exception if any, the filesystem
after the deletions that did happen, and the surviving `chosen_paths`. -/
structure LoopResult where
  err : Option DelError
  fs : FileSystem
  chosen : List (Option Path)

/-- The `for path in chosen_paths.copy()` loop of `action_delete_selected`:
each path is deleted (`os.remove` for a live regular file, `rm_tree`
otherwise) and, on success, removed from `chosen_paths`; there is no
`try`/`except`, so the first raised exception escapes with the mutations made
so far kept. -/
def delete_loop (fs : FileSystem) (chosen to_process : List (Option Path)) :
    LoopResult :=
  match to_process with
  | [] => { err := none, fs := fs, chosen := chosen }
  | p :: rest =>
    match p with
    | none => { err := some DelError.attrError, fs := fs, chosen := chosen }
    | some q =>
      match (if fs.kind q = FileKind.file then os_remove fs q else rm_tree fs q) with
      | none => { err := some (DelError.osError q), fs := fs, chosen := chosen }
      | some fs2 => delete_loop fs2 (chosen.erase p) rest

/-- `update_source_directory`: optionally switch to a new path and re-list it,
then set the cursor to 0 when the listing is non-empty and assign `None`
otherwise (an assignment the setter ignores). -/
def Directory.update_source_directory (d : Directory) (new_path : Option Path)
    (fs : FileSystem) : Directory × List Event :=
  let d1 : Directory :=
    match new_path with
    | some p => { d with path := p, _files := list_files_in_dir fs }
    | none => d
  d1.set_selected_index (if 0 < d1._files.length then some 0 else none)

/-- Outcome of `action_delete_selected`: the escaped exception if any, the new
widget state, the filesystem after the attempted deletions, and the emitted
events (empty when an exception escaped before the emissions). -/
structure DeleteResult where
  err : Option DelError
  dir : Directory
  fs : FileSystem
  events : List Event

/-- `action_delete_selected`: run the deletion loop over a copy of
`chosen_paths`; on an exception the method aborts with the partial mutations
kept; otherwise emit `SecondarySelectionChanged`, refresh the listing through
`update_source_directory(self.path)` and reclamp the cursor. -/
def Directory.action_delete_selected (d : Directory) (fs : FileSystem) :
    DeleteResult :=
  let r := delete_loop fs d.chosen_paths d.chosen_paths
  match r.err with
  | some e =>
    { err := some e, dir := { d with chosen_paths := r.chosen }, fs := r.fs
      events := [] }
  | none =>
    let d1 : Directory := { d with chosen_paths := r.chosen }
    let ev1 := Event.SecondarySelectionChanged d1.chosen_paths
    let r2 := d1.update_source_directory (some d1.path) r.fs
    { err := none, dir := r2.1, fs := r.fs, events := ev1 :: r2.2 }

/-- Models Python `re.match pattern name` for literal patterns: a match
anchored at the start of the name, i.e. a prefix test. -/
def re_match (pattern s : String) : Bool := pattern.data.isPrefixOf s.data

/-- `watch_filter`: re-list the directory from the filesystem, keep only the
entries whose name matches the new filter anchored at the start, store that
filtered list as `_files`, then set the cursor to 0 when it is non-empty and
assign `None` otherwise (an assignment the setter ignores). -/
def Directory.watch_filter (d : Directory) (fs : FileSystem)
    (new_filter : String) : Directory × List Event :=
  let d1 : Directory :=
    { d with _files := (list_files_in_dir fs).filter (fun f => re_match new_filter f) }
  d1.set_selected_index (if d1._files = [] then none else some 0)

/-- Models Python `list.index` wrapped in `try`/`except ValueError`: the index
of the first occurrence, or `none` when absent. -/
def pyIndex (l : List Path) (p : Path) : Option Nat :=
  match l with
  | [] => none
  | q :: rest => if q = p then some 0 else (pyIndex rest p).map (· + 1)

/-- `select_path`: a `None` argument selects index 0; otherwise look the path
up in `_files`, falling back to index 0 when it is absent, and assign the
result to `selected_index`. -/
def Directory.select_path (d : Directory) (path : Option Path) :
    Directory × List Event :=
  match path with
  | none => d.set_selected_index (some 0)
  | some p =>
    let index : Int :=
      match pyIndex d._files p with
      | some i => (i : Int)
      | none => 0
    d.set_selected_index (some index)

/-- `__init__`: list the directory, start with an empty chosen set. The
`_selected_index` field is first assigned on mount; the placeholder 0 here is
overwritten by `on_mount`. -/
def Directory.init (path : Path) (fs : FileSystem)
    (has_focus cursor_movement_enabled : Bool) : Directory :=
  { path := path
    _files := list_files_in_dir fs
    _selected_index := 0
    chosen_paths := []
    has_focus := has_focus
    cursor_movement_enabled := cursor_movement_enabled }

/-- `_on_mount`: assign `selected_index = 0` (which clamps and triggers the
initial `FilePreviewChanged`). -/
def Directory.on_mount (d : Directory) : Directory × List Event :=
  d.set_selected_index (some 0)

/-- A freshly constructed and mounted Directory widget. -/
def Directory.mounted (path : Path) (fs : FileSystem)
    (has_focus cursor_movement_enabled : Bool) : Directory :=
  ((Directory.init path fs has_focus cursor_movement_enabled).on_mount).1

/-- The four cursor-movement operations of claim C1. -/
inductive CursorOp where
  | next
  | prev
  | first
  | last
deriving DecidableEq, Repr

/-- Apply one cursor-movement operation (discarding emitted events). -/
def applyOp (op : CursorOp) (d : Directory) : Directory :=
  match op with
  | CursorOp.next => (d.action_next_file).1
  | CursorOp.prev => (d.action_prev_file).1
  | CursorOp.first => (d.action_first).1
  | CursorOp.last => (d.action_last).1

/-- Apply a sequence of cursor-movement operations, left to right. -/
def applyOps (ops : List CursorOp) (d : Directory) : Directory :=
  ops.foldl (fun s op => applyOp op s) d

/-- The cursor invariant the code actually maintains: the stored selected
index is always an integer; it is 0 when the file list is empty, and a valid
index into `_files` otherwise. -/
def cursorInv (d : Directory) : Prop :=
  if d._files = [] then d._selected_index = 0
  else 0 ≤ d._selected_index ∧ d._selected_index ≤ (d._files.length : Int) - 1

/-- Empty directory. -/
def fsEmpty : FileSystem :=
  { listing := [], kind := fun _ => FileKind.other, removeFails := fun _ => false }

/-- Directory containing two regular files. -/
def fsAB : FileSystem :=
  { listing := ["apple", "banana"], kind := fun _ => FileKind.file
    removeFails := fun _ => false }

/-- Directory containing three regular files, none failing to delete. -/
def fsABC : FileSystem :=
  { listing := ["a", "b", "c"], kind := fun _ => FileKind.file
    removeFails := fun _ => false }

/-- Directory containing one regular file whose deletion fails. -/
def fsFailA : FileSystem :=
  { listing := ["a"], kind := fun _ => FileKind.file
    removeFails := fun p => p == "a" }

/-- Directory containing one subdirectory. -/
def fsSub : FileSystem :=
  { listing := ["sub"], kind := fun _ => FileKind.dir
    removeFails := fun _ => false }

/-- Directory containing one regular file. -/
def fsFile1 : FileSystem :=
  { listing := ["f.txt"], kind := fun _ => FileKind.file
    removeFails := fun _ => false }

/-- Mounted widget over the empty directory. -/
def dEmpty : Directory := Directory.mounted "d" fsEmpty true true

/-- Mounted widget over `fsAB`. -/
def dAB : Directory := Directory.mounted "d" fsAB true true

/-- Mounted widget over `fsFailA` with the failing file chosen. -/
def dFailA : Directory :=
  { Directory.mounted "d" fsFailA true true with chosen_paths := [some "a"] }

/-- Mounted widget over `fsABC` with `a` and `c` chosen. -/
def dC7 : Directory :=
  { Directory.mounted "d" fsABC true true with chosen_paths := [some "a", some "c"] }

/-- Mounted widget over `fsABC` after `action_last` (cursor at index 2). -/
def dC5 : Directory := ((Directory.mounted "d" fsABC true true).action_last).1

/-- Mounted widget over `fsSub` (a directory entry is highlighted). -/
def dSub : Directory := Directory.mounted "d" fsSub true true

/-- Mounted widget over `fsFile1` (a file entry is highlighted). -/
def dFile1 : Directory := Directory.mounted "d" fsFile1 true true

/-- Mounted widget over `fsAB` with both files chosen (for the delete witness). -/
def dDelOk : Directory :=
  { Directory.mounted "d" fsAB true true with
      chosen_paths := [some "apple", some "banana"] }

/-- Filesystem state after both files of `fsAB` are deleted. -/
def fsABafter : FileSystem := (fsAB.removePath "apple").removePath "banana"

/-- Assigning Python `None` to the `selected_index` property leaves state and
emissions untouched. -/
theorem set_selected_index_none (d : Directory) :
    d.set_selected_index none = (d, []) := rfl

/-- Assigning an integer to the `selected_index` property stores its clamp. -/
theorem set_selected_index_some_fst (d : Directory) (v : Int) :
    (d.set_selected_index (some v)).1 =
      { d with _selected_index := d._clamp_index v } := rfl

/-- The `selected_index` setter never touches the file list. -/
theorem set_selected_index_files (d : Directory) (v : Option Int) :
    (d.set_selected_index v).1._files = d._files := by
  cases v <;> rfl

/-- The `selected_index` setter never touches the chosen set. -/
theorem set_selected_index_chosen (d : Directory) (v : Option Int) :
    (d.set_selected_index v).1.chosen_paths = d.chosen_paths := by
  cases v <;> rfl

/-- Storing any clamped index re-establishes the cursor invariant. -/
theorem clamp_index_inv (d : Directory) (v : Int) :
    cursorInv { d with _selected_index := d._clamp_index v } := by
  unfold cursorInv Directory._clamp_index clamp
  by_cases h : d._files = [] <;> simp [h]
  have hlen : 0 < d._files.length := List.length_pos.mpr h
  split_ifs <;> omega

/-- Each cursor-movement operation preserves the cursor invariant. -/
theorem applyOp_inv (op : CursorOp) (d : Directory) (h : cursorInv d) :
    cursorInv (applyOp op d) := by
  cases op with
  | next =>
      unfold applyOp Directory.action_next_file
      by_cases hg : (d.has_focus && d.cursor_movement_enabled) = true
      · simp only [hg, if_true, set_selected_index_some_fst]
        exact clamp_index_inv d _
      · simp only [hg, if_false, Bool.false_eq_true]
        exact h
  | prev =>
      unfold applyOp Directory.action_prev_file
      by_cases hg : (d.has_focus && d.cursor_movement_enabled) = true
      · simp only [hg, if_true, set_selected_index_some_fst]
        exact clamp_index_inv d _
      · simp only [hg, if_false, Bool.false_eq_true]
        exact h
  | first =>
      unfold applyOp Directory.action_first
      rw [set_selected_index_some_fst]
      exact clamp_index_inv d _
  | last =>
      unfold applyOp Directory.action_last
      by_cases hf : d._files = []
      · simp only [hf, if_true, set_selected_index_none]
        exact h
      · simp only [hf, if_false, set_selected_index_some_fst]
        exact clamp_index_inv d _

/-- Any sequence of cursor-movement operations preserves the cursor
invariant. -/
theorem applyOps_inv (ops : List CursorOp) (d : Directory) (h : cursorInv d) :
    cursorInv (applyOps ops d) := by
  induction ops generalizing d with
  | nil => exact h
  | cons op rest ih => exact ih _ (applyOp_inv op d h)

/-- A freshly mounted widget satisfies the cursor invariant. -/
theorem mounted_inv (p : Path) (fs : FileSystem) (f c : Bool) :
    cursorInv (Directory.mounted p fs f c) := by
  unfold Directory.mounted Directory.on_mount
  rw [set_selected_index_some_fst]
  exact clamp_index_inv _ _

/-- C1 (amended): after any sequence of `action_next_file` /
`action_prev_file` / `action_first` / `action_last` on a mounted Directory,
the stored cursor is always an integer — equal to 0 when the entry list is
empty (it is never Python `None`: `_clamp_index` returns 0 on an empty list
and the setter ignores `None` assignments), and a valid index in
`[0, N-1]` when the list has N > 0 entries. Every prefix of the sequence is
itself such a sequence, so the invariant holds after each operation. -/
theorem cursor_clamp_invariant (ops : List CursorOp) (p : Path)
    (fs : FileSystem) (f c : Bool) :
    cursorInv (applyOps ops (Directory.mounted p fs f c)) :=
  applyOps_inv ops _ (mounted_inv p fs f c)

/-- C1 counterexample: on a mounted Directory over an empty directory
(N = 0), `action_first` leaves the cursor at the integer 0 as read through
the `selected_index` getter — not at "none" as the claim requires. -/
theorem cursor_none_on_empty_counterexample :
    (dEmpty.action_first).1._files = [] ∧
    (dEmpty.action_first).1.selected_index = 0 := by decide

/-- C2 (code bug trace): `_clamp_index` on an empty entry list returns the
integer 0 for every requested index, contradicting the spec's clamp rule
(and the function's own `int | None` return annotation, whose `None` part is
otherwise unreachable). -/
theorem clamp_index_empty_returns_zero (d : Directory) (i : Int)
    (h : d._files = []) : d._clamp_index i = 0 := by
  unfold Directory._clamp_index
  simp [h]

/-- Witness for the C2 theorem at a concrete empty directory and requested
index 5. -/
theorem clamp_index_empty_returns_zero_witness :
    dEmpty._files = [] ∧ dEmpty._clamp_index 5 = 0 :=
  ⟨by decide, clamp_index_empty_returns_zero dEmpty 5 (by decide)⟩

/-- When the deletion loop runs over a copy of the chosen set and every
deletion succeeds, every element has been removed from the chosen set. -/
theorem delete_loop_self_ok (l : List (Option Path)) : ∀ (fs : FileSystem),
    (delete_loop fs l l).err = none → (delete_loop fs l l).chosen = [] := by
  induction l with
  | nil => intro fs _; rfl
  | cons p rest ih =>
      intro fs
      cases p with
      | none => intro h; simp [delete_loop] at h
      | some q =>
          cases hrem : (if fs.kind q = FileKind.file then os_remove fs q
              else rm_tree fs q) with
          | none => intro h; simp [delete_loop, hrem] at h
          | some fs2 =>
              intro h
              have h2 : (delete_loop fs2 rest rest).err = none := by
                simpa [delete_loop, hrem, List.erase_cons_head] using h
              simpa [delete_loop, hrem, List.erase_cons_head] using ih fs2 h2

/-- When the deletion loop raises, the element being processed at the time of
the failure is still in the surviving chosen set. -/
theorem delete_loop_err_mem (tp : List (Option Path)) :
    ∀ (fs : FileSystem) (c : List (Option Path)), c.Nodup → tp.Sublist c →
    ∀ e, (delete_loop fs c tp).err = some e →
    errElem e ∈ (delete_loop fs c tp).chosen := by
  induction tp with
  | nil => intro fs c _ _ e h; simp [delete_loop] at h
  | cons p rest ih =>
      intro fs c hnd hsub e h
      cases p with
      | none =>
          have he : DelError.attrError = e := by simpa [delete_loop] using h
          simp only [delete_loop, ← he, errElem]
          exact hsub.subset (List.mem_cons_self none rest)
      | some q =>
          cases hrem : (if fs.kind q = FileKind.file then os_remove fs q
              else rm_tree fs q) with
          | none =>
              have he : DelError.osError q = e := by
                simpa [delete_loop, hrem] using h
              simp only [delete_loop, hrem, ← he, errElem]
              exact hsub.subset (List.mem_cons_self (some q) rest)
          | some fs2 =>
              have h2 : (delete_loop fs2 (c.erase (some q)) rest).err = some e := by
                simpa [delete_loop, hrem] using h
              have hsub2 : rest.Sublist (c.erase (some q)) := by
                have := hsub.erase (some q)
                simpa [List.erase_cons_head] using this
              have := ih fs2 (c.erase (some q)) (hnd.erase _) hsub2 e h2
              simpa [delete_loop, hrem] using this

/-- The chosen set survives `update_source_directory` unchanged. -/
theorem update_source_directory_chosen (d : Directory) (np : Option Path)
    (fs : FileSystem) :
    (d.update_source_directory np fs).1.chosen_paths = d.chosen_paths := by
  cases np <;> simp [Directory.update_source_directory, set_selected_index_chosen]

/-- `update_source_directory` with a path stores the fresh listing. -/
theorem update_source_directory_files_some (d : Directory) (p : Path)
    (fs : FileSystem) :
    (d.update_source_directory (some p) fs).1._files = fs.listing := by
  simp [Directory.update_source_directory, set_selected_index_files,
    list_files_in_dir]

/-- `update_source_directory` with a path resets the cursor to 0 whenever the
fresh listing is non-empty. -/
theorem update_source_directory_cursor_some (d : Directory) (p : Path)
    (fs : FileSystem) (h : fs.listing ≠ []) :
    (d.update_source_directory (some p) fs).1._selected_index = 0 := by
  have hlen : 0 < fs.listing.length := List.length_pos.mpr h
  simp only [Directory.update_source_directory, list_files_in_dir]
  rw [if_pos hlen, set_selected_index_some_fst]
  simp only [Directory._clamp_index, clamp, h, if_false]
  split_ifs <;> omega

/-- C3 (amended): `action_delete_selected` attempts the chosen paths in
order; when every deletion succeeds, the chosen set ends empty, a
`SecondarySelectionChanged` notification is emitted first, the listing is
refreshed from the filesystem, and the cursor is reclamped to 0 when the new
listing is non-empty. When a deletion raises, the exception escapes the
method: no notification or refresh happens, the stored file list and cursor
are untouched, and the element whose deletion failed is still in the chosen
set — the chosen set is NOT cleared unconditionally. -/
theorem delete_selected_batch_behavior (d : Directory) (fs : FileSystem)
    (hnd : d.chosen_paths.Nodup) :
    ((d.action_delete_selected fs).err = none →
      (d.action_delete_selected fs).dir.chosen_paths = [] ∧
      (d.action_delete_selected fs).dir._files =
        (d.action_delete_selected fs).fs.listing ∧
      (d.action_delete_selected fs).events.head? =
        some (Event.SecondarySelectionChanged []) ∧
      ((d.action_delete_selected fs).fs.listing ≠ [] →
        (d.action_delete_selected fs).dir._selected_index = 0)) ∧
    (∀ e, (d.action_delete_selected fs).err = some e →
      (d.action_delete_selected fs).events = [] ∧
      (d.action_delete_selected fs).dir._files = d._files ∧
      (d.action_delete_selected fs).dir._selected_index = d._selected_index ∧
      errElem e ∈ (d.action_delete_selected fs).dir.chosen_paths) := by
  cases herr : (delete_loop fs d.chosen_paths d.chosen_paths).err with
  | none =>
      have hch : (delete_loop fs d.chosen_paths d.chosen_paths).chosen = [] :=
        delete_loop_self_ok d.chosen_paths fs herr
      constructor
      · intro _
        refine ⟨?_, ?_, ?_, ?_⟩
        · simp [Directory.action_delete_selected, herr,
            update_source_directory_chosen, hch]
        · simp [Directory.action_delete_selected, herr,
            update_source_directory_files_some]
        · simp [Directory.action_delete_selected, herr, hch]
        · intro hne
          have hne2 : (delete_loop fs d.chosen_paths d.chosen_paths).fs.listing ≠ [] := by
            simpa [Directory.action_delete_selected, herr] using hne
          simp [Directory.action_delete_selected, herr,
            update_source_directory_cursor_some _ _ _ hne2]
      · intro e he
        exfalso
        simp [Directory.action_delete_selected, herr] at he
  | some e0 =>
      constructor
      · intro h
        exfalso
        simp [Directory.action_delete_selected, herr] at h
      · intro e he
        have he0 : e0 = e := by
          simpa [Directory.action_delete_selected, herr] using he
        subst he0
        refine ⟨?_, ?_, ?_, ?_⟩
        · simp [Directory.action_delete_selected, herr]
        · simp [Directory.action_delete_selected, herr]
        · simp [Directory.action_delete_selected, herr]
        · have hm := delete_loop_err_mem d.chosen_paths fs d.chosen_paths hnd
            (List.Sublist.refl _) e0 herr
          simpa [Directory.action_delete_selected, herr] using hm

/-- C3 counterexample: with chosen set containing exactly the file `a`, whose
deletion raises, `action_delete_selected` propagates the exception, emits
nothing, and leaves `a` in the chosen set — the chosen set is not cleared
after the failed attempt, contradicting the claim. -/
theorem delete_failure_counterexample :
    (dFailA.action_delete_selected fsFailA).err = some (DelError.osError "a") ∧
    (dFailA.action_delete_selected fsFailA).dir.chosen_paths = [some "a"] ∧
    (dFailA.action_delete_selected fsFailA).events = [] := by decide

/-- Witness for the C3 theorem: the all-success case at a concrete directory
with two chosen files, and the failure case at a concrete directory whose one
chosen file fails to delete. -/
theorem delete_selected_batch_behavior_witness :
    ((dDelOk.action_delete_selected fsAB).dir.chosen_paths = [] ∧
      (dDelOk.action_delete_selected fsAB).dir._files =
        (dDelOk.action_delete_selected fsAB).fs.listing ∧
      (dDelOk.action_delete_selected fsAB).events.head? =
        some (Event.SecondarySelectionChanged []) ∧
      ((dDelOk.action_delete_selected fsAB).fs.listing ≠ [] →
        (dDelOk.action_delete_selected fsAB).dir._selected_index = 0)) ∧
    ((dFailA.action_delete_selected fsFailA).events = [] ∧
      (dFailA.action_delete_selected fsFailA).dir._files = dFailA._files ∧
      (dFailA.action_delete_selected fsFailA).dir._selected_index =
        dFailA._selected_index ∧
      errElem (DelError.osError "a") ∈
        (dFailA.action_delete_selected fsFailA).dir.chosen_paths) :=
  ⟨(delete_selected_batch_behavior dDelOk fsAB (by decide)).1 (by decide),
   (delete_selected_batch_behavior dFailA fsFailA (by decide)).2
     (DelError.osError "a") (by decide)⟩

/-- C4 (amended): `watch_filter` does not keep the stored entry snapshot — it
re-lists the directory from the filesystem and replaces `_files` with exactly
the freshly listed entries whose names match the new pattern anchored at the
start; non-matching entries are discarded from the stored list (visibility of
the stored list at render time is a separate mechanism). -/
theorem watch_filter_refilters_listing (d : Directory) (fs : FileSystem)
    (pat : String) :
    (d.watch_filter fs pat).1._files.Sublist (list_files_in_dir fs) ∧
    ∀ p, p ∈ (d.watch_filter fs pat).1._files ↔
      p ∈ list_files_in_dir fs ∧ re_match pat p = true := by
  constructor
  · have h : (d.watch_filter fs pat).1._files =
        (list_files_in_dir fs).filter (fun f => re_match pat f) := by
      simp [Directory.watch_filter, set_selected_index_files]
    rw [h]
    exact List.filter_sublist (list_files_in_dir fs)
  · intro p
    simp [Directory.watch_filter, set_selected_index_files, List.mem_filter]

/-- C4 counterexample: on a directory listing `apple` and `banana`, applying
the filter `a` replaces the stored entry list with `[apple]` — the stored
entry sequence is changed by filtering, contradicting the claim that only
visibility changes. -/
theorem watch_filter_discards_counterexample :
    dAB._files = ["apple", "banana"] ∧
    (dAB.watch_filter fsAB "a").1._files = ["apple"] ∧
    (dAB.watch_filter fsAB "a").1._files ≠ dAB._files := by decide

/-- C5 (amended): after `watch_filter`, the cursor is reset to index 0 when
at least one entry matches; when no entry matches, the code assigns Python
`None`, but the `selected_index` setter silently ignores that assignment, so
the stored cursor keeps its previous integer value (and nothing is emitted) —
it is not reset to "no selection". -/
theorem watch_filter_cursor_reset (d : Directory) (fs : FileSystem)
    (pat : String) :
    ((d.watch_filter fs pat).1._files ≠ [] →
      (d.watch_filter fs pat).1._selected_index = 0) ∧
    ((d.watch_filter fs pat).1._files = [] →
      (d.watch_filter fs pat).1._selected_index = d._selected_index ∧
      (d.watch_filter fs pat).2 = []) := by
  have hfiles : (d.watch_filter fs pat).1._files =
      (list_files_in_dir fs).filter (fun f => re_match pat f) := by
    simp [Directory.watch_filter, set_selected_index_files]
  by_cases hl : (list_files_in_dir fs).filter (fun f => re_match pat f) = []
  · constructor
    · intro hne
      exact absurd (hfiles.trans hl) hne
    · intro _
      simp [Directory.watch_filter, hl, set_selected_index_none]
  · constructor
    · intro _
      have hlen : 0 <
          ((list_files_in_dir fs).filter (fun f => re_match pat f)).length :=
        List.length_pos.mpr hl
      simp only [Directory.watch_filter, hl, if_false,
        set_selected_index_some_fst]
      simp only [Directory._clamp_index, clamp, hl, if_false]
      split_ifs <;> omega
    · intro he
      exact absurd (hfiles.symm.trans he) hl

/-- C5 counterexample: with the cursor at index 2 over a three-entry listing,
applying a filter that matches nothing leaves the stored cursor at the
integer 2 — it is not reset to "no selection" as the claim requires. -/
theorem watch_filter_nomatch_counterexample :
    dC5._selected_index = 2 ∧
    (dC5.watch_filter fsABC "z").1._files = [] ∧
    (dC5.watch_filter fsABC "z").1._selected_index = 2 := by decide

/-- Witness for the C5 theorem: a matching filter resets the cursor to 0, and
a non-matching filter keeps the previous cursor with no emission, at concrete
inputs. -/
theorem watch_filter_cursor_reset_witness :
    (dAB.watch_filter fsAB "a").1._selected_index = 0 ∧
    ((dAB.watch_filter fsAB "q").1._selected_index = dAB._selected_index ∧
      (dAB.watch_filter fsAB "q").2 = []) :=
  ⟨(watch_filter_cursor_reset dAB fsAB "a").1 (by decide),
   (watch_filter_cursor_reset dAB fsAB "q").2 (by decide)⟩

/-- C6 (code bug trace): with an empty entry list there is no highlighted
entry, yet `action_toggle_selected` is not a no-op — it inserts Python `None`
into `chosen_paths` (contradicting the field's declared type `set[Path]`, and
priming a later `AttributeError` in `action_delete_selected`) and emits a
`SecondarySelectionChanged` carrying that `None`. -/
theorem toggle_selected_empty_adds_none :
    dEmpty.current_highlighted_path = none ∧
    dEmpty.chosen_paths = [] ∧
    (dEmpty.action_toggle_selected).1.chosen_paths = [none] ∧
    (dEmpty.action_toggle_selected).2 =
      [Event.SecondarySelectionChanged [none]] := by decide

/-- C7: with entries `a`, `b`, `c`, chosen set containing `a` and `c`, and no
filesystem errors, `action_delete_selected` leaves entries `[b]`, an empty
chosen set, and the cursor at 0. -/
theorem delete_then_refresh :
    (dC7.action_delete_selected fsABC).err = none ∧
    (dC7.action_delete_selected fsABC).dir._files = ["b"] ∧
    (dC7.action_delete_selected fsABC).dir.chosen_paths = [] ∧
    (dC7.action_delete_selected fsABC).dir.selected_index = 0 := by decide

/-- C8: `goto_selected_path` on a highlighted entry that is a live directory
clears the chosen set and emits exactly one `CurrentDirChanged` with the
highlighted path as `new_dir` and `from_dir = None`; on a highlighted entry
that is a live regular file it performs exactly one external editor call and
emits no directory-change request. -/
theorem goto_selected_path_dir_file (d : Directory) (fs : FileSystem)
    (p : Path) (hp : d.current_highlighted_path = some p) :
    (fs.kind p = FileKind.dir →
      d.goto_selected_path fs =
        ({ d with chosen_paths := [] }, [Event.CurrentDirChanged p none])) ∧
    (fs.kind p = FileKind.file →
      d.goto_selected_path fs = (d, [Event.EditorCall p])) := by
  constructor
  · intro hk
    simp [Directory.goto_selected_path, hp, hk]
  · intro hk
    simp [Directory.goto_selected_path, hp, hk]

/-- Witness for the C8 theorem: the directory case at a concrete listing with
one subdirectory, and the file case at a concrete listing with one file. -/
theorem goto_selected_path_dir_file_witness :
    dSub.goto_selected_path fsSub =
      ({ dSub with chosen_paths := [] }, [Event.CurrentDirChanged "sub" none]) ∧
    dFile1.goto_selected_path fsFile1 = (dFile1, [Event.EditorCall "f.txt"]) :=
  ⟨(goto_selected_path_dir_file dSub fsSub "sub" (by decide)).1 (by decide),
   (goto_selected_path_dir_file dFile1 fsFile1 "f.txt" (by decide)).2
     (by decide)⟩

/-- The Python `list.index` model returns `none` exactly when the path is
absent. -/
theorem pyIndex_none_of_not_mem (l : List Path) (p : Path) (h : p ∉ l) :
    pyIndex l p = none := by
  induction l with
  | nil => rfl
  | cons q rest ih =>
      have hq : ¬ q = p := fun hqe => h (hqe ▸ List.mem_cons_self q rest)
      have hrest : p ∉ rest := fun hm => h (List.mem_cons_of_mem q hm)
      simp [pyIndex, hq, ih hrest]

/-- C9: `select_path` with a path absent from a non-empty entry list falls
back to cursor index 0 (the `ValueError` from `list.index` is caught), with
no error escaping. -/
theorem select_path_absent_fallback (d : Directory) (p : Path)
    (hne : d._files ≠ []) (habs : p ∉ d._files) :
    (d.select_path (some p)).1.selected_index = 0 := by
  have hidx := pyIndex_none_of_not_mem d._files p habs
  have hlen : 0 < d._files.length := List.length_pos.mpr hne
  simp only [Directory.select_path, hidx, Directory.selected_index,
    set_selected_index_some_fst]
  simp only [Directory._clamp_index, clamp, hne, if_false]
  split_ifs <;> omega

/-- Witness for the C9 theorem at a concrete two-entry listing and an absent
path. -/
theorem select_path_absent_fallback_witness :
    (dAB.select_path (some "zzz")).1.selected_index = 0 :=
  select_path_absent_fallback dAB "zzz" (by decide) (by decide)

/-- C10: assigning Python `None` to `selected_index` is silently ignored —
the state and emissions are untouched, so the stored integer index survives.
Consequently `action_last` on an empty entry list, `watch_filter` with no
matching entry, and `update_source_directory` of an empty directory all
preserve the previously stored integer index and emit no
`FilePreviewChanged`. -/
theorem selected_index_none_ignored (d : Directory) (fs : FileSystem)
    (pat : String) (q : Path) :
    d.set_selected_index none = (d, []) ∧
    (d._files = [] →
      (d.action_last).1._selected_index = d._selected_index ∧
      (d.action_last).2 = []) ∧
    ((list_files_in_dir fs).filter (fun f => re_match pat f) = [] →
      (d.watch_filter fs pat).1._selected_index = d._selected_index ∧
      (d.watch_filter fs pat).2 = []) ∧
    (list_files_in_dir fs = [] →
      (d.update_source_directory (some q) fs).1._selected_index =
        d._selected_index ∧
      (d.update_source_directory (some q) fs).2 = []) := by
  refine ⟨rfl, ?_, ?_, ?_⟩
  · intro h
    simp [Directory.action_last, h, set_selected_index_none]
  · intro h
    simp [Directory.watch_filter, h, set_selected_index_none]
  · intro h
    simp only [list_files_in_dir] at h
    simp [Directory.update_source_directory, list_files_in_dir, h,
      set_selected_index_none]

/-- Witness for the C10 theorem at a concrete empty directory, a non-matching
pattern, and a concrete refresh path. -/
theorem selected_index_none_ignored_witness :
    dEmpty.set_selected_index none = (dEmpty, []) ∧
    ((dEmpty.action_last).1._selected_index = dEmpty._selected_index ∧
      (dEmpty.action_last).2 = []) ∧
    ((dEmpty.watch_filter fsEmpty "z").1._selected_index =
        dEmpty._selected_index ∧
      (dEmpty.watch_filter fsEmpty "z").2 = []) ∧
    ((dEmpty.update_source_directory (some "p") fsEmpty).1._selected_index =
        dEmpty._selected_index ∧
      (dEmpty.update_source_directory (some "p") fsEmpty).2 = []) :=
  ⟨(selected_index_none_ignored dEmpty fsEmpty "z" "p").1,
   (selected_index_none_ignored dEmpty fsEmpty "z" "p").2.1 (by decide),
   (selected_index_none_ignored dEmpty fsEmpty "z" "p").2.2.1 (by decide),
   (selected_index_none_ignored dEmpty fsEmpty "z" "p").2.2.2 (by decide)⟩

end Kupo
